import Mathlib

set_option autoImplicit false

namespace DiscordRPC

/-! Shallow embedding of the transport abstraction and request-correlation
engine of the discord-rpc client: the `WebsocketTransport.connect` probe loop,
the `Client` message handler, the transport-close handler installed on
`connected`, `Client.connect` with its 10-second timeout, `Client.destroy`,
and `Client.hanleAccessTokenResponse` (sic, the source's spelling). -/

/-- Error codes carried by a rejection: the client's own codes
(`RPC_UNKNOWN_ERROR`, `RPC_CONNECTION_TIMEOUT`, `RPC_CONNECTION_ENDED`) or a
remote integer code copied out of an envelope or close reason. -/
inductive ErrCode where
  | unknown
  | connectionTimeout
  | connectionEnded
  | remote (code : Int)
  deriving DecidableEq, Repr

/-- An inbound wire envelope as consumed by the client's `message` listener:
`cmd`, `evt`, `nonce`, plus the two payload fields the listener reads on the
error path (`message.data.code` and `message.data.message`). -/
structure Message where
  cmd : String
  evt : Option String
  nonce : Option String
  dataCode : Int
  dataMessage : String
  deriving DecidableEq, Repr

/-- How a pending request's future is settled: `resolve(message)` with the full
reply envelope, or `reject(error)` with a code and message. -/
inductive Settlement where
  | resolvedWith (reply : Message)
  | rejectedWith (code : ErrCode) (msg : String)
  deriving DecidableEq, Repr

/-- The handshake branch test: `message.cmd === "DISPATCH" && message.evt === "READY"`. -/
def isReadyDispatch (m : Message) : Bool :=
  m.cmd == "DISPATCH" && m.evt == some "READY"

/-- JavaScript truthiness of `message.nonce`: a present, non-empty string. -/
def nonceTruthy (m : Message) : Option String :=
  match m.nonce with
  | some n => if n = "" then none else some n
  | none => none

/-- Observable effects of one run of the client's `message` listener:
the pending table afterward, the settlement performed (token and value),
whether `this.emit(message.evt, message.data)` ran, and whether the
`connected` signal was emitted. -/
structure HandlerOut where
  pending : List String
  settled : Option (String × Settlement)
  dispatched : Bool
  connectedEmitted : Bool
  deriving DecidableEq, Repr

/-- The client constructor's `message` listener. On a `DISPATCH`/`READY`
handshake it emits `connected`. Otherwise, when `message.nonce` is truthy and
present in the nonce map, it settles that entry (reject with the remote
`data.code`/`data.message` when `evt === "ERROR"`, else resolve with the full
reply) and deletes the entry; then, in the same else-branch, it runs
`this.emit(message.evt, message.data)` unconditionally. -/
def handleMessage (pending : List String) (m : Message) : HandlerOut :=
  if isReadyDispatch m then
    { pending := pending, settled := none, dispatched := false, connectedEmitted := true }
  else
    match nonceTruthy m with
    | some n =>
      if n ∈ pending then
        { pending := pending.erase n
          settled := some (n,
            if m.evt == some "ERROR" then
              Settlement.rejectedWith (ErrCode.remote m.dataCode) m.dataMessage
            else Settlement.resolvedWith m)
          dispatched := true
          connectedEmitted := false }
      else
        { pending := pending, settled := none, dispatched := true, connectedEmitted := false }
    | none =>
      { pending := pending, settled := none, dispatched := true, connectedEmitted := false }

/-- Run the `message` listener over a sequence of inbound envelopes in receipt
order, threading the pending table and collecting the settlements performed. -/
def processAll (pending : List String) : List Message → List String × List (String × Settlement)
  | [] => (pending, [])
  | m :: ms =>
    let o := handleMessage pending m
    let rest := processAll o.pending ms
    (rest.1, o.settled.toList ++ rest.2)

/-- Whether an envelope is the reply that settles the pending request with
token `t`: not the handshake branch, and `nonce` equal to `t`. -/
def targets (t : String) (m : Message) : Bool :=
  !(isReadyDispatch m) && m.nonce == some t

/-- The settlement the spec prescribes for a matched reply: rejection with the
remote code and message when the reply's event is `ERROR`, else resolution with
the full reply envelope. -/
def expectedSettlement (m : Message) : Settlement :=
  if m.evt == some "ERROR" then
    Settlement.rejectedWith (ErrCode.remote m.dataCode) m.dataMessage
  else Settlement.resolvedWith m

/-- The optional reason payload of a transport `close` event: a structured
object with `code` and `message`, or a plain string. `none` models the
`undefined` reason the websocket transport actually emits. -/
inductive CloseReason where
  | obj (code : Int) (msg : String)
  | str (s : String)
  deriving DecidableEq, Repr

/-- Observable effects of the transport-close listener installed on
`connected`: the nonce map afterward, the rejections performed (token and
value), and whether `disconnected` was emitted. -/
structure CloseOut where
  pending : List String
  rejections : List (String × Settlement)
  disconnectedEmitted : Bool
  deriving DecidableEq, Repr

/-- The `transport.once("close", ...)` listener: for every entry of the nonce
map it sets the error code to `reason.code` when `typeof reason === "object"`
(else `RPC_CONNECTION_ENDED`) and the message to `reason.message` for an
object, the string itself for a string, else `"Connection ended"`, and rejects
the entry's promise; then it emits `disconnected`. The listener never deletes
entries from the map. -/
def handleClose (pending : List String) (reason : Option CloseReason) : CloseOut :=
  let code := match reason with
    | some (CloseReason.obj c _) => ErrCode.remote c
    | _ => ErrCode.connectionEnded
  let msg := match reason with
    | some (CloseReason.obj _ m) => m
    | some (CloseReason.str s) => s
    | none => "Connection ended"
  { pending := pending
    rejections := pending.map fun t => (t, Settlement.rejectedWith code msg)
    disconnectedEmitted := true }

/-- The candidate URL probed at loop index `i` by `WebsocketTransport.connect`. -/
def probeUrl (clientId : String) (i : Nat) : String :=
  "ws://127.0.0.1:" ++ toString (6463 + i) ++ "/?v=1&client_id=" ++ clientId

/-- The probe loop of `WebsocketTransport.connect`, starting at index `i` with
the given fuel (the source runs indices 0 through 9): returns the indices
probed in order and the first index whose socket opened, if any. A candidate
whose socket errors is caught (`.catch(() => null)`) and the loop advances;
a successful open breaks out of the loop at once. -/
def probeAux (opens : Nat → Bool) : Nat → Nat → List Nat × Option Nat
  | 0, _ => ([], none)
  | fuel + 1, i =>
    if opens i then ([i], some i)
    else
      let rest := probeAux opens fuel (i + 1)
      (i :: rest.1, rest.2)

/-- Observable outcome of `WebsocketTransport.connect`: the URLs probed in
order, the promise's settlement, whether the message/close handlers were
attached to a socket, and whether the code performed a member assignment on an
absent socket. -/
structure WsConnectOut where
  probedUrls : List String
  result : Except String Nat
  handlersAttached : Bool
  invalidSocketAccess : Bool
  deriving Repr

/-- `WebsocketTransport.connect`: probes indices 0..9 in order, keeps the
first socket that opens and resolves; when none opened it rejects with
`Error("Failed to connect to websocket")` and then still executes
`this.ws!.onmessage = ...` — with no socket stored this is a member assignment
on `undefined`, recorded as `invalidSocketAccess`; no handlers get attached on
that path, so no `message` or `close` events can be emitted afterward. -/
def wsTransportConnect (clientId : String) (opens : Nat → Bool) : WsConnectOut :=
  let p := probeAux opens 10 0
  match p.2 with
  | some i =>
    { probedUrls := p.1.map (probeUrl clientId)
      result := Except.ok i
      handlersAttached := true
      invalidSocketAccess := false }
  | none =>
    { probedUrls := p.1.map (probeUrl clientId)
      result := Except.error "Failed to connect to websocket"
      handlersAttached := false
      invalidSocketAccess := true }

/-- A token-exchange response body; each field is `some` exactly when the
corresponding key is present in the JSON object (`"access_token" in data`). -/
structure TokenResponse where
  access_token : Option String
  refresh_token : Option String
  expires_in : Option Nat
  token_type : Option String
  deriving DecidableEq, Repr

/-- The client's token-related fields: credentials, the stored token triple,
and the handle of the scheduled refresh timer, if any. -/
structure TokenState where
  clientId : String
  clientSecret : Option String
  accessToken : Option String
  refreshToken : Option String
  tokenType : String
  refreshTimeout : Option Nat
  deriving DecidableEq, Repr

/-- A one-shot refresh timer produced by `setTimeout`: its handle and its
delay argument (`data.expires_in`). On fire it runs `refreshAccessToken`. -/
structure ScheduledRefresh where
  id : Nat
  delay : Nat
  deriving DecidableEq, Repr

/-- `Client.hanleAccessTokenResponse` (spelling from the source): throws a
`TypeError` when any of `access_token`, `refresh_token`, `expires_in`,
`token_type` is absent from the response — before any field of the client is
assigned — and otherwise stores the three token fields and schedules a fresh
one-shot refresh timer (handle `tid`) with delay `expires_in`. -/
def hanleAccessTokenResponse (s : TokenState) (d : TokenResponse) (tid : Nat) :
    Except String (TokenState × ScheduledRefresh) :=
  match d.access_token, d.refresh_token, d.expires_in, d.token_type with
  | some a, some r, some e, some t =>
    Except.ok
      ({ s with
          accessToken := some a
          refreshToken := some r
          tokenType := t
          refreshTimeout := some tid },
        { id := tid, delay := e })
  | _, _, _, _ => Except.error "Invalid access token response!"

/-- The form body `refreshAccessToken` posts to the token endpoint when the
refresh timer fires: grant type `refresh_token` with the currently stored
refresh token (empty string when none is stored). -/
def refreshRequestBody (s : TokenState) : List (String × String) :=
  [("client_id", s.clientId),
    ("client_secret", s.clientSecret.getD ""),
    ("grant_type", "refresh_token"),
    ("refresh_token", s.refreshToken.getD "")]

/-- Observable effects of `Client.destroy`: the token fields afterward, the
timer handle passed to `clearTimeout` (if any), and whether
`transport.close()` was awaited. A cancelled one-shot timer never fires. -/
structure DestroyOut where
  state : TokenState
  cancelledTimer : Option Nat
  transportCloseAwaited : Bool
  deriving DecidableEq, Repr

/-- `Client.destroy`: when a refresh timer is stored it clears that timer and
sets `refreshTimeout` and `refreshToken` to `undefined`; in every case it then
awaits `transport.close()`. No other field is touched. -/
def destroy (s : TokenState) : DestroyOut :=
  match s.refreshTimeout with
  | some tid =>
    { state := { s with refreshTimeout := none, refreshToken := none }
      cancelledTimer := some tid
      transportCloseAwaited := true }
  | none =>
    { state := s, cancelledTimer := none, transportCloseAwaited := true }

/-- The value a connection promise is rejected with: the attempt's `RPCError`
with a code and message, or the raw error the transport's own `connect()`
rejected with (forwarded by `.catch(reject)`). -/
inductive RejectValue where
  | rpc (code : ErrCode) (msg : String)
  | transportErr (msg : String)
  deriving DecidableEq, Repr

/-- Settlement state of a promise: pending, fulfilled, or rejected. A settled
promise ignores later `resolve`/`reject` calls. -/
inductive PromiseSt where
  | pending
  | fulfilled
  | rejected (v : RejectValue)
  deriving DecidableEq, Repr

/-- State of the client's connection machinery: the stored in-flight promise
(`this.connectionPromise`), the settlement table of all promises created so
far, a fresh-id counter, the promise whose attempt closures (timeout handler,
once-connected listener, transport `.catch`) are live, whether `clearTimeout`
ran for that attempt's 10-second timer, whether its once-connected listener is
still armed, how many times `transport.connect()` was started, and whether the
transport-close listener was installed. -/
structure ConnState where
  connectionPromise : Option Nat
  promises : List (Nat × PromiseSt)
  nextId : Nat
  attempt : Option Nat
  timerCleared : Bool
  onceConnectedArmed : Bool
  transportConnects : Nat
  closeListenerInstalled : Bool
  deriving DecidableEq, Repr

/-- Settle promise `p` with result `r`; a no-op on entries already settled and
on every other promise. -/
def settle (ps : List (Nat × PromiseSt)) (p : Nat) (r : PromiseSt) :
    List (Nat × PromiseSt) :=
  ps.map fun q => if q.1 = p ∧ q.2 = PromiseSt.pending then (q.1, r) else q

/-- `Client.connect`: when `this.connectionPromise` is set it is returned as
is — nothing else happens; otherwise a fresh promise is created and stored,
its 10-second timeout timer armed, its once-connected listener registered, and
`transport.connect()` started. Returns the new state and the promise handed to
the caller. -/
def clientConnect (s : ConnState) : ConnState × Nat :=
  match s.connectionPromise with
  | some p => (s, p)
  | none =>
    let p := s.nextId
    ({ s with
        connectionPromise := some p
        promises := s.promises ++ [(p, PromiseSt.pending)]
        nextId := p + 1
        attempt := some p
        timerCleared := false
        onceConnectedArmed := true
        transportConnects := s.transportConnects + 1 }, p)

/-- Events the live attempt's closures react to: the client emitting
`connected` (handshake `READY` received), the 10-second timer firing, and
`transport.connect()` rejecting with an error message. -/
inductive CEvent where
  | connectedEmit
  | timeoutFire
  | transportReject (msg : String)
  deriving DecidableEq, Repr

/-- One event step. The timeout handler (runs only when its timer was not
cleared) sets `this.connectionPromise = undefined` and rejects the attempt's
promise with `RPC_CONNECTION_TIMEOUT` / `"Connection timed out"`. The
once-connected listener clears `this.connectionPromise`, installs the
transport-close listener, clears the timeout, and resolves. The transport
`.catch(reject)` rejects the attempt's promise with the transport's error but
leaves `this.connectionPromise` untouched. -/
def stepEvent (s : ConnState) : CEvent → ConnState
  | CEvent.timeoutFire =>
    match s.attempt with
    | some p =>
      if s.timerCleared then s
      else
        { s with
            connectionPromise := none
            promises := settle s.promises p
              (PromiseSt.rejected
                (RejectValue.rpc ErrCode.connectionTimeout "Connection timed out")) }
    | none => s
  | CEvent.connectedEmit =>
    match s.attempt with
    | some p =>
      if s.onceConnectedArmed then
        { s with
            connectionPromise := none
            onceConnectedArmed := false
            closeListenerInstalled := true
            timerCleared := true
            promises := settle s.promises p PromiseSt.fulfilled }
      else s
    | none => s
  | CEvent.transportReject msg =>
    match s.attempt with
    | some p =>
      { s with
          promises := settle s.promises p
            (PromiseSt.rejected (RejectValue.transportErr msg)) }
    | none => s

/-! Theorems. -/

/-- C1 (counterexample): with one request pending and a reasonless close, the
pending-request table afterward still holds that entry — the close listener
rejects every pending promise but never deletes the map entries, so the claim
that the table is empty afterward is false. -/
theorem close_leaves_pending_table :
    (handleClose ["a"] none).pending ≠ [] := by
  simp [handleClose]

/-- C1 (amended): when the transport emits `close` with N requests pending,
all N are rejected with a connection-ended error — carrying the structured
close reason's code/message when present, else the generic
`"Connection ended"` message — and `disconnected` is emitted; however the
pending-request table is left unchanged (its entries are not removed). -/
theorem close_rejects_all_pending (pending : List String) (reason : Option CloseReason) :
    (handleClose pending reason).disconnectedEmitted = true ∧
    (handleClose pending reason).pending = pending ∧
    (handleClose pending reason).rejections.length = pending.length ∧
    ∀ t ∈ pending,
      (t, Settlement.rejectedWith
            (match reason with
              | some (CloseReason.obj c _) => ErrCode.remote c
              | _ => ErrCode.connectionEnded)
            (match reason with
              | some (CloseReason.obj _ m) => m
              | some (CloseReason.str s) => s
              | none => "Connection ended")) ∈ (handleClose pending reason).rejections := by
  refine ⟨rfl, rfl, by simp [handleClose], ?_⟩
  intro t ht
  simp only [handleClose, List.mem_map]
  exact ⟨t, ht, rfl⟩

/-- C1 (witness): applying the close theorem to two pending requests and a
structured close reason. -/
theorem close_rejects_all_pending_witness :
    ("n1", Settlement.rejectedWith (ErrCode.remote 4000) "oops") ∈
      (handleClose ["n1", "n2"] (some (CloseReason.obj 4000 "oops"))).rejections :=
  (close_rejects_all_pending ["n1", "n2"]
    (some (CloseReason.obj 4000 "oops"))).2.2.2 "n1" (by simp)

/-- C4 (counterexample): `destroy()` does not clear the access token — with an
access token stored and a refresh timer pending, the access token survives
`destroy()`, so the claim that both token fields are cleared is false. -/
theorem destroy_keeps_access_token :
    (destroy { clientId := "c"
               clientSecret := none
               accessToken := some "tok"
               refreshToken := some "ref"
               tokenType := "Bearer"
               refreshTimeout := some 7 }).state.accessToken ≠ none := by
  simp [destroy]

/-- C4 (amended): after `destroy()` with a refresh timer pending, that timer
is cancelled (so a previously scheduled refresh never fires) and the refresh
token is cleared, but the access token is left as it was; the transport is
closed with its full close awaited. -/
theorem destroy_cancels_timer_clears_refresh (s : TokenState) (tid : Nat)
    (h : s.refreshTimeout = some tid) :
    (destroy s).cancelledTimer = some tid ∧
    (destroy s).state.refreshTimeout = none ∧
    (destroy s).state.refreshToken = none ∧
    (destroy s).state.accessToken = s.accessToken ∧
    (destroy s).transportCloseAwaited = true := by
  simp [destroy, h]

/-- C4 (witness): applying the destroy theorem to a concrete client state. -/
theorem destroy_cancels_timer_clears_refresh_witness :
    (destroy { clientId := "c"
               clientSecret := some "s"
               accessToken := some "tok"
               refreshToken := some "ref"
               tokenType := "Bearer"
               refreshTimeout := some 3 }).cancelledTimer = some 3 :=
  (destroy_cancels_timer_clears_refresh
    { clientId := "c"
      clientSecret := some "s"
      accessToken := some "tok"
      refreshToken := some "ref"
      tokenType := "Bearer"
      refreshTimeout := some 3 } 3 rfl).1

/-- C6: a token response missing any of the four required fields makes
`hanleAccessTokenResponse` throw before any assignment (so no token field is
updated and no timer is scheduled); a response with all four fields stores the
access token, refresh token and token type, schedules a one-shot timer with
delay `expires_in`, and the refresh the timer performs on fire posts grant
type `refresh_token` with the newly stored refresh token. -/
theorem token_response_validation (s : TokenState) (d : TokenResponse) (tid : Nat) :
    ((d.access_token = none ∨ d.refresh_token = none ∨
        d.expires_in = none ∨ d.token_type = none) →
      hanleAccessTokenResponse s d tid = Except.error "Invalid access token response!") ∧
    (∀ a r e t, d = ⟨some a, some r, some e, some t⟩ →
      hanleAccessTokenResponse s d tid =
        Except.ok ({ s with
                      accessToken := some a
                      refreshToken := some r
                      tokenType := t
                      refreshTimeout := some tid },
                    { id := tid, delay := e }) ∧
      refreshRequestBody { s with
                            accessToken := some a
                            refreshToken := some r
                            tokenType := t
                            refreshTimeout := some tid } =
        [("client_id", s.clientId), ("client_secret", s.clientSecret.getD ""),
          ("grant_type", "refresh_token"), ("refresh_token", r)]) := by
  constructor
  · intro h
    rcases d with ⟨a, r, e, t⟩
    rcases a <;> rcases r <;> rcases e <;> rcases t <;>
      simp_all [hanleAccessTokenResponse]
  · intro a r e t hd
    subst hd
    exact ⟨rfl, rfl⟩

/-- C6 (witness): a response missing `refresh_token` fails fast, and a
complete response stores the tokens and schedules the refresh. -/
theorem token_response_validation_witness :
    hanleAccessTokenResponse (TokenState.mk "c" none none none "Bearer" none)
        ⟨some "at", none, some 900, some "Bearer"⟩ 1 =
      Except.error "Invalid access token response!" ∧
    hanleAccessTokenResponse (TokenState.mk "c" none none none "Bearer" none)
        ⟨some "at", some "rt", some 900, some "Bearer"⟩ 1 =
      Except.ok (TokenState.mk "c" none (some "at") (some "rt") "Bearer" (some 1),
        ScheduledRefresh.mk 1 900) :=
  ⟨(token_response_validation (TokenState.mk "c" none none none "Bearer" none)
      ⟨some "at", none, some 900, some "Bearer"⟩ 1).1 (Or.inr (Or.inl rfl)),
    ((token_response_validation (TokenState.mk "c" none none none "Bearer" none)
      ⟨some "at", some "rt", some 900, some "Bearer"⟩ 1).2 "at" "rt" 900 "Bearer" rfl).1⟩

/-- C9 (code bug): when every probe fails, `connect()` does reject with the
connection-establishment error and no handlers get attached (so nothing is
emitted afterward), but the code then still executes
`this.ws!.onmessage = ...` — a member assignment on the absent socket, which
the claim says never happens. -/
theorem probe_failure_invalid_socket_access :
    (wsTransportConnect "123" (fun _ => false)).result =
        Except.error "Failed to connect to websocket" ∧
    (wsTransportConnect "123" (fun _ => false)).handlersAttached = false ∧
    (wsTransportConnect "123" (fun _ => false)).invalidSocketAccess = true :=
  ⟨rfl, rfl, rfl⟩

/-- The probe loop with every candidate in range failing probes the whole
range in order and finds nothing. -/
theorem probeAux_all_fail (opens : Nat → Bool) (fuel : Nat) :
    ∀ i, (∀ k, i ≤ k → k < i + fuel → opens k = false) →
      probeAux opens fuel i = (List.range' i fuel, none) := by
  induction fuel with
  | zero => intro i _; rfl
  | succ fuel ih =>
    intro i h
    have hi : opens i = false := h i (Nat.le_refl i) (by omega)
    have hrest := ih (i + 1) (fun k hk1 hk2 => h k (by omega) (by omega))
    simp [probeAux, hi, hrest, List.range'_succ]

/-- The probe loop stops at the first candidate in range that opens, having
probed exactly the candidates up to and including it, in order. -/
theorem probeAux_first_success (opens : Nat → Bool) (fuel : Nat) :
    ∀ i j, i ≤ j → j < i + fuel → opens j = true →
      (∀ k, i ≤ k → k < j → opens k = false) →
      probeAux opens fuel i = (List.range' i (j - i + 1), some j) := by
  induction fuel with
  | zero => intro i j h1 h2 _ _; omega
  | succ fuel ih =>
    intro i j h1 h2 hj hmin
    by_cases hi : opens i = true
    · have : i = j := by
        by_contra hne
        have : i < j := by omega
        have := hmin i (Nat.le_refl i) this
        simp [this] at hi
      subst this
      simp [probeAux, hi]
    · have hif : opens i = false := by
        cases h : opens i
        · rfl
        · exact absurd h hi
      have hij : i < j := by
        rcases Nat.lt_or_ge i j with h | h
        · exact h
        · have : i = j := by omega
          rw [this] at hif
          rw [hif] at hj
          exact absurd hj (by simp)
      have hrest := ih (i + 1) j (by omega) (by omega) hj
        (fun k hk1 hk2 => hmin k (by omega) hk2)
      have harith : j - i + 1 = (j - (i + 1) + 1) + 1 := by omega
      simp [probeAux, hif, hrest, harith, List.range'_succ]

/-- C5: `WebsocketTransport.connect` probes the candidate URLs
`ws://127.0.0.1:{6463+i}/?v=1&client_id={clientId}` in increasing order of
`i` starting at 0; it stops at the first index whose socket opens (probing
exactly indices 0..j, no later candidate) and resolves with it, and when all
ten candidates fail it has probed exactly the ten URLs for i = 0..9 and
rejects with the no-local-endpoint error. -/
theorem ws_probe_first_success (cid : String) (opens : Nat → Bool) :
    (∀ j, j < 10 → opens j = true → (∀ k, k < j → opens k = false) →
      (wsTransportConnect cid opens).probedUrls =
          (List.range (j + 1)).map
            (fun i => "ws://127.0.0.1:" ++ toString (6463 + i) ++ "/?v=1&client_id=" ++ cid) ∧
        (wsTransportConnect cid opens).result = Except.ok j) ∧
    ((∀ j, j < 10 → opens j = false) →
      (wsTransportConnect cid opens).probedUrls =
          (List.range 10).map
            (fun i => "ws://127.0.0.1:" ++ toString (6463 + i) ++ "/?v=1&client_id=" ++ cid) ∧
        (wsTransportConnect cid opens).result =
          Except.error "Failed to connect to websocket") := by
  constructor
  · intro j hj hopen hmin
    have hp := probeAux_first_success opens 10 0 j (Nat.zero_le j) (by omega) hopen
      (fun k _ hk => hmin k hk)
    have hr : List.range' 0 (j - 0 + 1) = List.range (j + 1) := by
      simp [List.range_eq_range']
    rw [hr] at hp
    simp [wsTransportConnect, hp, probeUrl]
  · intro hall
    have hp := probeAux_all_fail opens 10 0 (fun k _ hk => hall k (by omega))
    have hr : List.range' 0 10 = List.range 10 := by
      simp [List.range_eq_range']
    rw [hr] at hp
    simp [wsTransportConnect, hp, probeUrl]

/-- C5 (witness): with only port index 3 accepting, the first four URLs are
probed and the connection uses index 3; with every port refusing, connect
rejects with the no-endpoint error. -/
theorem ws_probe_first_success_witness :
    (wsTransportConnect "987" (fun j => j == 3)).result = Except.ok 3 ∧
    (wsTransportConnect "987" (fun _ => false)).result =
      Except.error "Failed to connect to websocket" := by
  constructor
  · exact ((ws_probe_first_success "987" (fun j => j == 3)).1 3 (by omega) (by decide)
      (by intro k hk; simp only [beq_eq_false_iff_ne]; omega)).2
  · exact ((ws_probe_first_success "987" (fun _ => false)).2 (fun j _ => rfl)).2

/-- Settling a promise that appears in none of the table's entries leaves the
table unchanged. -/
theorem settle_of_forall_ne (ps : List (Nat × PromiseSt)) (p : Nat) (r : PromiseSt)
    (h : ∀ q ∈ ps, q.1 ≠ p) : settle ps p r = ps := by
  induction ps with
  | nil => rfl
  | cons q ps ih =>
    have hq : q.1 ≠ p := h q (List.mem_cons_self q ps)
    have hrest := ih (fun x hx => h x (List.mem_cons_of_mem q hx))
    simp only [settle, List.map_cons] at hrest ⊢
    rw [if_neg (fun hc => hq hc.1), hrest]

/-- Settling a freshly appended pending promise rewrites exactly that entry. -/
theorem settle_append_fresh (ps : List (Nat × PromiseSt)) (p : Nat) (r : PromiseSt)
    (h : ∀ q ∈ ps, q.1 ≠ p) :
    settle (ps ++ [(p, PromiseSt.pending)]) p r = ps ++ [(p, r)] := by
  have h1 : settle ps p r = ps := settle_of_forall_ne ps p r h
  simp [settle] at h1 ⊢
  exact h1

/-- C7: `Client.connect` called while a previous call is still stored returns
the very same in-flight promise and changes nothing — in particular no second
`transport.connect()` is started; only when no connection promise is stored
does it create a fresh promise, store it, and start a transport connection
attempt. -/
theorem connect_returns_inflight_promise (s : ConnState) :
    (∀ p, s.connectionPromise = some p → clientConnect s = (s, p)) ∧
    (s.connectionPromise = none →
      (clientConnect s).1.transportConnects = s.transportConnects + 1 ∧
      (clientConnect s).1.connectionPromise = some (clientConnect s).2 ∧
      (clientConnect s).2 = s.nextId) := by
  constructor
  · intro p hp
    simp [clientConnect, hp]
  · intro h
    simp [clientConnect, h]

/-- C7 (witness): on a state holding in-flight promise 5, connect returns that
promise unchanged; on a state with none stored, it starts one attempt. -/
theorem connect_returns_inflight_promise_witness :
    clientConnect (ConnState.mk (some 5) [(5, PromiseSt.pending)] 6 (some 5)
        false true 1 false) =
      (ConnState.mk (some 5) [(5, PromiseSt.pending)] 6 (some 5) false true 1 false, 5) ∧
    (clientConnect (ConnState.mk none [] 0 none false false 0 false)).1.transportConnects = 1 :=
  ⟨(connect_returns_inflight_promise
      (ConnState.mk (some 5) [(5, PromiseSt.pending)] 6 (some 5) false true 1 false)).1
        5 rfl,
    ((connect_returns_inflight_promise
      (ConnState.mk none [] 0 none false false 0 false)).2 rfl).1⟩

/-- C8: starting a fresh connection attempt arms a 10-second timeout: when the
timer fires before the `connected` handshake event, the attempt's promise is
rejected with `RPC_CONNECTION_TIMEOUT` / `"Connection timed out"` and the
stored in-flight promise is cleared; when `connected` arrives first, the
timeout is cancelled (`clearTimeout` runs) and the promise is fulfilled. -/
theorem connect_timeout_bound (s : ConnState) (h : s.connectionPromise = none)
    (hfresh : ∀ q ∈ s.promises, q.1 ≠ s.nextId) :
    (stepEvent (clientConnect s).1 CEvent.timeoutFire).connectionPromise = none ∧
    (stepEvent (clientConnect s).1 CEvent.timeoutFire).promises =
      s.promises ++ [((clientConnect s).2,
        PromiseSt.rejected
          (RejectValue.rpc ErrCode.connectionTimeout "Connection timed out"))] ∧
    (stepEvent (clientConnect s).1 CEvent.connectedEmit).timerCleared = true ∧
    (stepEvent (clientConnect s).1 CEvent.connectedEmit).closeListenerInstalled = true ∧
    (stepEvent (clientConnect s).1 CEvent.connectedEmit).promises =
      s.promises ++ [((clientConnect s).2, PromiseSt.fulfilled)] := by
  have h2 := settle_append_fresh s.promises s.nextId
    (PromiseSt.rejected (RejectValue.rpc ErrCode.connectionTimeout "Connection timed out"))
    hfresh
  have h3 := settle_append_fresh s.promises s.nextId PromiseSt.fulfilled hfresh
  simp [clientConnect, h, stepEvent, h2, h3]

/-- C8 (witness): on a fresh client, the timeout path rejects and clears the
stored promise, and the connected path fulfills and cancels the timer. -/
theorem connect_timeout_bound_witness :
    (stepEvent (clientConnect (ConnState.mk none [] 0 none false false 0 false)).1
        CEvent.timeoutFire).connectionPromise = none ∧
    (stepEvent (clientConnect (ConnState.mk none [] 0 none false false 0 false)).1
        CEvent.connectedEmit).promises = [(0, PromiseSt.fulfilled)] := by
  have h := connect_timeout_bound (ConnState.mk none [] 0 none false false 0 false)
    rfl (by simp)
  exact ⟨h.1, by simpa using h.2.2.2.2⟩

/-- C10: when `transport.connect()` rejects, the attempt's promise is rejected
with the transport's error but `this.connectionPromise` is not cleared: a
subsequent `connect()` call returns the very same, already-rejected promise
and starts no new transport attempt; only the later firing of the 10-second
timer resets the stored promise to `undefined`. -/
theorem transport_reject_keeps_promise (s : ConnState) (msg : String)
    (h : s.connectionPromise = none)
    (hfresh : ∀ q ∈ s.promises, q.1 ≠ s.nextId) :
    (stepEvent (clientConnect s).1 (CEvent.transportReject msg)).promises =
      s.promises ++ [((clientConnect s).2,
        PromiseSt.rejected (RejectValue.transportErr msg))] ∧
    (stepEvent (clientConnect s).1 (CEvent.transportReject msg)).connectionPromise =
      some (clientConnect s).2 ∧
    clientConnect (stepEvent (clientConnect s).1 (CEvent.transportReject msg)) =
      (stepEvent (clientConnect s).1 (CEvent.transportReject msg), (clientConnect s).2) ∧
    (stepEvent (stepEvent (clientConnect s).1 (CEvent.transportReject msg))
        CEvent.timeoutFire).connectionPromise = none := by
  have h2 := settle_append_fresh s.promises s.nextId
    (PromiseSt.rejected (RejectValue.transportErr msg)) hfresh
  simp [clientConnect, h, stepEvent, h2]

/-- C10 (witness): on a fresh client whose transport rejects, a second
`connect()` returns the same rejected promise without a new attempt. -/
theorem transport_reject_keeps_promise_witness :
    (stepEvent (clientConnect (ConnState.mk none [] 0 none false false 0 false)).1
        (CEvent.transportReject "Failed to connect to websocket")).connectionPromise =
      some 0 := by
  have h := transport_reject_keeps_promise
    (ConnState.mk none [] 0 none false false 0 false)
    "Failed to connect to websocket" rfl (by simp)
  exact h.2.1

/-- A reply targeting a live pending token settles exactly that entry with
the prescribed settlement, removes it from the table, and is also passed to
the event dispatch. -/
theorem handleMessage_of_targets (pending : List String) (t : String) (m : Message)
    (ht : t ∈ pending) (hne : t ≠ "") (h : targets t m = true) :
    handleMessage pending m =
      { pending := pending.erase t
        settled := some (t, expectedSettlement m)
        dispatched := true
        connectedEmitted := false } := by
  have h' := h
  simp only [targets, Bool.and_eq_true, Bool.not_eq_true'] at h'
  obtain ⟨h1, h2⟩ := h'
  have h2' : m.nonce = some t := by simpa using h2
  simp [handleMessage, h1, nonceTruthy, h2', hne, ht, expectedSettlement]

/-- A message that does not target `t` never settles `t`, keeps `t` in the
table when it was there, and preserves distinctness of the table's tokens. -/
theorem handleMessage_no_target (pending : List String) (t : String) (m : Message)
    (h : targets t m = false) :
    (∀ x ∈ (handleMessage pending m).settled.toList, x.1 ≠ t) ∧
    (t ∈ pending → t ∈ (handleMessage pending m).pending) ∧
    (pending.Nodup → (handleMessage pending m).pending.Nodup) := by
  by_cases hrd : isReadyDispatch m = true
  · simp [handleMessage, hrd]
  · have hrd' : isReadyDispatch m = false := by simpa using hrd
    have hnonce : (m.nonce == some t) = false := by
      simpa [targets, hrd'] using h
    rcases hnt : nonceTruthy m with _ | n
    · simp [handleMessage, hrd', hnt]
    · have hmn : m.nonce = some n := by
        unfold nonceTruthy at hnt
        rcases hx : m.nonce with _ | x
        · rw [hx] at hnt
          simp at hnt
        · rw [hx] at hnt
          by_cases hxe : x = ""
          · simp [hxe] at hnt
          · simp [hxe] at hnt
            rw [hnt]
      have hnet : n ≠ t := by
        rw [hmn] at hnonce
        simpa using hnonce
      by_cases hmem : n ∈ pending
      · refine ⟨?_, ?_, ?_⟩
        · simp [handleMessage, hrd', hnt, hmem, hnet]
        · intro htp
          simp only [handleMessage, hrd', hnt, hmem, if_true]
          simp only [Bool.false_eq_true, if_false]
          exact (List.mem_erase_of_ne (fun he => hnet he.symm)).mpr htp
        · intro hnd
          simp only [handleMessage, hrd', hnt, hmem, if_true]
          simp only [Bool.false_eq_true, if_false]
          exact hnd.erase n
      · simp [handleMessage, hrd', hnt, hmem]

/-- Running the handler over any message sequence starting from a table not
containing `t` never settles `t` and never puts `t` into the table. -/
theorem processAll_of_not_mem (ms : List Message) (pending : List String) (t : String)
    (h : t ∉ pending) :
    (∀ x ∈ (processAll pending ms).2, x.1 ≠ t) ∧ t ∉ (processAll pending ms).1 := by
  induction ms generalizing pending with
  | nil => exact ⟨by simp [processAll], by simpa [processAll] using h⟩
  | cons m ms ih =>
    have hsub : (handleMessage pending m).pending ⊆ pending := by
      unfold handleMessage
      by_cases hrd : isReadyDispatch m = true
      · simp [hrd]
      · have hrd' : isReadyDispatch m = false := by simpa using hrd
        rcases hnt : nonceTruthy m with _ | n
        · simp [hrd', hnt]
        · by_cases hmem : n ∈ pending
          · simp only [hrd', hnt, hmem, if_true, Bool.false_eq_true, if_false]
            exact List.erase_subset n pending
          · simp [hrd', hnt, hmem]
    have hkey : ∀ x ∈ (handleMessage pending m).settled.toList, x.1 ≠ t := by
      intro x hx
      have hx1 : x.1 ∈ pending := by
        revert hx
        unfold handleMessage
        by_cases hrd : isReadyDispatch m = true
        · simp [hrd]
        · have hrd' : isReadyDispatch m = false := by simpa using hrd
          rcases hnt : nonceTruthy m with _ | n
          · simp [hrd', hnt]
          · by_cases hmem : n ∈ pending
            · intro hx
              simp only [hrd', hnt, hmem, if_true, Bool.false_eq_true, if_false,
                Option.toList_some, List.mem_singleton] at hx
              rw [hx]
              exact hmem
            · simp [hrd', hnt, hmem]
      exact fun he => h (he ▸ hx1)
    have ih' := ih (handleMessage pending m).pending (fun hc => h (hsub hc))
    refine ⟨?_, ?_⟩
    · intro x hx
      simp only [processAll, List.mem_append] at hx
      rcases hx with hx | hx
      · exact hkey x hx
      · exact ih'.1 x hx
    · simpa [processAll] using ih'.2

/-- C2: starting from a table of pairwise-distinct pending tokens, for every
pending request `t` and every arrival order of inbound envelopes: when some
envelope targets `t`, the request settles exactly once — with precisely the
first envelope whose correlation token equals `t`, rejected with the remote
code and message when that envelope's event is `ERROR`, else resolved with
the full reply — and the entry is removed from the table at match time; when
no envelope targets `t`, the request is never settled and stays pending. -/
theorem request_settled_once_by_matching_reply (ms : List Message)
    (pending : List String) (t : String)
    (hnd : pending.Nodup) (ht : t ∈ pending) (hne : t ≠ "") :
    (match ms.find? (targets t) with
      | some m =>
        (processAll pending ms).2.filter (fun x => x.1 == t) =
            [(t, expectedSettlement m)] ∧
          t ∉ (processAll pending ms).1
      | none =>
        (processAll pending ms).2.filter (fun x => x.1 == t) = [] ∧
          t ∈ (processAll pending ms).1) := by
  induction ms generalizing pending with
  | nil =>
    simp only [List.find?_nil, processAll, List.filter_nil]
    exact ⟨by trivial, ht⟩
  | cons m ms ih =>
    by_cases htm : targets t m = true
    · rw [List.find?_cons_of_pos _ htm]
      have hmsg := handleMessage_of_targets pending t m ht hne htm
      have hni : t ∉ pending.erase t := by simp [hnd.mem_erase_iff]
      obtain ⟨hall, hfin⟩ := processAll_of_not_mem ms (pending.erase t) t hni
      have hrest : (processAll (pending.erase t) ms).2.filter (fun x => x.1 == t) = [] := by
        rw [List.filter_eq_nil_iff]
        intro x hx
        simp [hall x hx]
      simp only [processAll, hmsg]
      refine ⟨?_, hfin⟩
      simp [List.filter_append, hrest]
    · have htm' : targets t m = false := by simpa using htm
      rw [List.find?_cons_of_neg _ htm]
      obtain ⟨hkeys, hmem, hnodup⟩ := handleMessage_no_target pending t m htm'
      have ih' := ih (handleMessage pending m).pending (hnodup hnd) (hmem ht)
      have hskip : (handleMessage pending m).settled.toList.filter
          (fun x => x.1 == t) = [] := by
        rw [List.filter_eq_nil_iff]
        intro x hx
        simp [hkeys x hx]
      rcases hfind : ms.find? (targets t) with _ | m'
      · rw [hfind] at ih'
        simp only at ih'
        refine ⟨?_, by simpa [processAll] using ih'.2⟩
        simp only [processAll, List.filter_append, hskip, List.nil_append]
        exact ih'.1
      · rw [hfind] at ih'
        simp only at ih'
        refine ⟨?_, by simpa [processAll] using ih'.2⟩
        simp only [processAll, List.filter_append, hskip, List.nil_append]
        exact ih'.1

/-- C2 (witness): two concurrent requests `aa` and `bb` whose replies arrive
out of order; `aa`'s future is settled exactly once, by its own reply (an
`ERROR` reply, so a rejection carrying the remote code and message), and its
entry has left the table. -/
theorem request_settled_once_by_matching_reply_witness :
    (processAll ["aa", "bb"]
        [⟨"X", some "EV", some "bb", 0, ""⟩,
          ⟨"X", some "ERROR", some "aa", 5000, "boom"⟩]).2.filter
        (fun x => x.1 == "aa") =
      [("aa", Settlement.rejectedWith (ErrCode.remote 5000) "boom")] ∧
    "aa" ∉ (processAll ["aa", "bb"]
        [⟨"X", some "EV", some "bb", 0, ""⟩,
          ⟨"X", some "ERROR", some "aa", 5000, "boom"⟩]).1 := by
  have h := request_settled_once_by_matching_reply
    [⟨"X", some "EV", some "bb", 0, ""⟩, ⟨"X", some "ERROR", some "aa", 5000, "boom"⟩]
    ["aa", "bb"] "aa" (by decide) (by decide) (by decide)
  simpa [List.find?, targets, isReadyDispatch, expectedSettlement] using h

/-- C3 (counterexample): an envelope whose token matches a pending request is
settled and nonetheless also dispatched to general subscribers — the emit of
`message.evt` runs unconditionally in the non-handshake branch — so the claim
that a matched envelope is not dispatched as an unsolicited event is false. -/
theorem matched_reply_also_dispatched :
    (handleMessage ["n1"] ⟨"FOO", some "E", some "n1", 0, ""⟩).settled =
        some ("n1", Settlement.resolvedWith ⟨"FOO", some "E", some "n1", 0, ""⟩) ∧
      (handleMessage ["n1"] ⟨"FOO", some "E", some "n1", 0, ""⟩).dispatched = true := by
  constructor <;> rfl

/-- C3 (amended): every inbound envelope outside the handshake branch is
dispatched to general subscribers by its event name — both when its token
matches no pending request (including a missing token) and when it does
match; a matching envelope additionally settles its request (that is the only
case in which one is settled). Only the handshake `READY` dispatch is not
re-dispatched. -/
theorem dispatch_behavior (pending : List String) (m : Message) :
    (isReadyDispatch m = false →
      (handleMessage pending m).dispatched = true ∧
      ((handleMessage pending m).settled.isSome ↔
        ∃ n, nonceTruthy m = some n ∧ n ∈ pending)) ∧
    (isReadyDispatch m = true → (handleMessage pending m).dispatched = false) := by
  constructor
  · intro h
    rcases hnt : nonceTruthy m with _ | n
    · simp [handleMessage, h, hnt]
    · by_cases hmem : n ∈ pending
      · simp [handleMessage, h, hnt, hmem]
      · simp [handleMessage, h, hnt, hmem]
  · intro h
    simp [handleMessage, h]

/-- C3 (witness): an envelope with no token is dispatched and settles
nothing; one with a matching token is dispatched and settles its request. -/
theorem dispatch_behavior_witness :
    (handleMessage ["x"] ⟨"FOO", some "E", none, 0, ""⟩).dispatched = true ∧
      (handleMessage ["x"] ⟨"FOO", some "E", some "x", 0, ""⟩).settled.isSome = true :=
  ⟨((dispatch_behavior ["x"] ⟨"FOO", some "E", none, 0, ""⟩).1 rfl).1,
    by
      have h := ((dispatch_behavior ["x"] ⟨"FOO", some "E", some "x", 0, ""⟩).1 rfl).2
      exact h.mpr ⟨"x", rfl, by simp⟩⟩

end DiscordRPC
